import Mathlib

/-
Shallow embedding of the Flask application in src/src/app.py
(docker-mcp-integration-test).

The application registers five routes ("/", "/health", "/metrics",
"/api/info", "/api/test"), a before_request hook that increments a global
request counter, Prometheus labeled counters incremented inside four of the
five handlers, and 404/500 error handlers returning JSON error bodies.

Modelling choices:
- Clock readings (time.time, datetime.now) are rationals; each handler
  observes one clock reading t for all its time reads.
- JSON values are a small inductive type; the external serializations
  (datetime.isoformat, sys.version) are abstract constructors, since those
  come from libraries outside this repository.
- The environment is a partial map from variable names to strings.
- Flask dispatch semantics: before_request hooks run in preprocess_request,
  before dispatch_request raises the routing exception for an unmatched
  path, hence the global counter is incremented even for 404 requests.
-/

namespace DockerMcpApp

/-- JSON-like response values. `iso t` stands for the ISO-8601 rendering of
clock reading `t` by datetime.isoformat; `sysVersion` stands for the string
os.sys.version of the Python runtime (both external to the repository). -/
inductive JVal where
  | s (v : String)
  | num (v : ℚ)
  | iso (t : ℚ)
  | sysVersion
deriving DecidableEq

/-- A JSON object body, as the ordered field list produced by jsonify. -/
abbrev JObj := List (String × JVal)

/-- First value bound to key `k` in the object, if any. -/
def JObj.lookup (o : JObj) (k : String) : Option JVal :=
  (o.find? (fun p => p.1 = k)).map (fun p => p.2)

/-- The ordered list of field names of the object. -/
def JObj.keys (o : JObj) : List String := o.map (fun p => p.1)

/-- The dynamic data interpolated into the HTML template of the home page. -/
structure HomeData where
  current_time : ℚ
  uptime : ℚ
  request_count : Nat
  branch_name : String
  environment : String
deriving DecidableEq

/-- Label pair (method, endpoint) of the Prometheus counter
app_requests_total. -/
abbrev Labels := String × String

/-- Response bodies: the rendered home page, a JSON object, or the
Prometheus text exposition of the labeled counters (generate_latest). -/
inductive Body where
  | html (d : HomeData)
  | json (o : JObj)
  | metricsText (labeled : List (Labels × Nat))
deriving DecidableEq

/-- An HTTP response: status code and body. -/
structure Response where
  status : Nat
  body : Body
deriving DecidableEq

/-- The process environment: a partial map of environment variables. -/
abbrev Env := String → Option String

/-- os.getenv with a default value. -/
def getenv (env : Env) (k d : String) : String := (env k).getD d

/-- The mutable process-wide state of the application: start timestamp
(app_start_time), global request counter (request_count), and the labeled
counters behind REQUEST_COUNT, as an association list from (method,
endpoint) labels to counts. -/
structure AppState where
  app_start_time : ℚ
  request_count : Nat
  labeled : List (Labels × Nat)
deriving DecidableEq

/-- REQUEST_COUNT.labels(m, e).inc(): bump the counter for `key`, creating
it at 1 when the label pair has never been used. -/
def incLabel (key : Labels) : List (Labels × Nat) → List (Labels × Nat)
  | [] => [(key, 1)]
  | (k, v) :: rest =>
      if k = key then (k, v + 1) :: rest else (k, v) :: incLabel key rest

/-- Current value of the labeled counter for `key` (0 when absent). -/
def getLabel (key : Labels) (l : List (Labels × Nat)) : Nat :=
  ((l.find? (fun p => p.1 = key)).map (fun p => p.2)).getD 0

/-- Python int() truncation toward zero, on a rational. -/
def pyInt (q : ℚ) : Int := if 0 ≤ q then q.floor else -((-q).floor)

/-- Handler for route "/": bumps the ("GET", "/") labeled counter, then
renders the HTML status page with current time, uptime, the request count
read after the before_request increment, and the branch and environment
labels from the environment variables. -/
def home (env : Env) (t : ℚ) (st : AppState) : AppState × Response :=
  let st := { st with labeled := incLabel ("GET", "/") st.labeled }
  (st,
   { status := 200,
     body := Body.html
       { current_time := t,
         uptime := t - st.app_start_time,
         request_count := st.request_count,
         branch_name := getenv env "BRANCH_NAME" "main",
         environment := getenv env "APP_ENV" "development" } })

/-- Handler for route "/health". -/
def health (t : ℚ) (st : AppState) : AppState × Response :=
  let st := { st with labeled := incLabel ("GET", "/health") st.labeled }
  (st,
   { status := 200,
     body := Body.json
       [("status", JVal.s "healthy"),
        ("timestamp", JVal.iso t),
        ("uptime", JVal.num (t - st.app_start_time)),
        ("version", JVal.s "1.0.0")] })

/-- Handler for route "/metrics": returns generate_latest() over the
labeled counters. This handler performs no labeled-counter increment. -/
def metrics (st : AppState) : AppState × Response :=
  (st, { status := 200, body := Body.metricsText st.labeled })

/-- Handler for route "/api/info". -/
def api_info (env : Env) (t : ℚ) (st : AppState) : AppState × Response :=
  let st := { st with labeled := incLabel ("GET", "/api/info") st.labeled }
  (st,
   { status := 200,
     body := Body.json
       [("app_name", JVal.s "Docker MCP Integration Test"),
        ("version", JVal.s "1.0.0"),
        ("branch", JVal.s (getenv env "BRANCH_NAME" "main")),
        ("environment", JVal.s (getenv env "APP_ENV" "development")),
        ("container_id", JVal.s (getenv env "HOSTNAME" "unknown")),
        ("python_version", JVal.sysVersion),
        ("start_time", JVal.num st.app_start_time),
        ("current_time", JVal.num t)] })

/-- Handler for route "/api/test": after the simulated 100ms delay it
returns a JSON body whose random_number is int(time.time() * 1000) % 1000.
Python % with a positive modulus agrees with Int.emod. -/
def api_test (t : ℚ) (st : AppState) : AppState × Response :=
  let st := { st with labeled := incLabel ("GET", "/api/test") st.labeled }
  (st,
   { status := 200,
     body := Body.json
       [("test", JVal.s "success"),
        ("message", JVal.s "API is working correctly"),
        ("timestamp", JVal.iso t),
        ("random_number", JVal.num ((pyInt (t * 1000) % 1000 : Int) : ℚ))] })

/-- The 404 error handler. -/
def not_found : Response :=
  { status := 404, body := Body.json [("error", JVal.s "Not found")] }

/-- The 500 error handler. -/
def internal_error : Response :=
  { status := 500, body := Body.json [("error", JVal.s "Internal server error")] }

/-- The five registered routes. -/
def routes : List String := ["/", "/health", "/metrics", "/api/info", "/api/test"]

/-- The before_request hook: request_count += 1 on the global counter. -/
def before_request (st : AppState) : AppState :=
  { st with request_count := st.request_count + 1 }

/-- One full request: Flask runs the before_request hooks
(preprocess_request) for every inbound request, then dispatch_request
either calls the matched route handler or raises NotFound for an unmatched
path, which the errorhandler(404) converts to the structured 404 body. -/
def handleRequest (env : Env) (t : ℚ) (st : AppState) (path : String) :
    AppState × Response :=
  let st := before_request st
  if path = "/" then home env t st
  else if path = "/health" then health t st
  else if path = "/metrics" then metrics st
  else if path = "/api/info" then api_info env t st
  else if path = "/api/test" then api_test t st
  else (st, not_found)

/-- Values computed by the __main__ block at startup: the port from
int(os.getenv(PORT, 8000)), the debug flag, and the environment and branch
labels written to the startup log. int() of a malformed PORT string raises,
hence the Option. -/
structure StartupInfo where
  port : Int
  debug : Bool
  logged_environment : String
  logged_branch : String
deriving DecidableEq

/-- The __main__ startup block. -/
def mainStartup (env : Env) : Option StartupInfo :=
  (match env "PORT" with
   | none => some (8000 : Int)
   | some s => s.toInt?).map
    (fun port =>
      { port := port,
        debug := decide (getenv env "APP_ENV" "development" = "development"),
        logged_environment := getenv env "APP_ENV" "development",
        logged_branch := getenv env "BRANCH_NAME" "main" })

/-- Run a sequence of requests, each with its own path and clock reading,
threading the application state; returns the final state and responses. -/
def runSeq (env : Env) : List (String × ℚ) → AppState → AppState × List Response
  | [], st => (st, [])
  | (path, t) :: rest, st =>
      let p := handleRequest env t st path
      let q := runSeq env rest p.1
      (q.1, p.2 :: q.2)

/-- Atomic machine actions of the unguarded `request_count += 1` in
before_request: load the global into a register, then store register + 1.
A thread switch may occur between the two. -/
inductive Act where
  | read
  | write
deriving DecidableEq

/-- The two-action program each request thread runs for the increment. -/
def incProg : List Act := [Act.read, Act.write]

/-- A thread executing the increment: program counter and local register. -/
structure Thread where
  pc : Nat
  reg : Nat
deriving DecidableEq

/-- Execute the next action of thread `tid` against global counter `c`. -/
def stepTid (tid : Nat) (c : Nat) (ths : List Thread) : Nat × List Thread :=
  match ths.get? tid with
  | none => (c, ths)
  | some th =>
    match incProg.get? th.pc with
    | none => (c, ths)
    | some Act.read => (c, ths.set tid { pc := th.pc + 1, reg := c })
    | some Act.write => (th.reg + 1, ths.set tid { pc := th.pc + 1, reg := th.reg })

/-- Execute a schedule (an interleaving): at each step the named thread
performs its next atomic action. -/
def execSched (sched : List Nat) (c : Nat) (ths : List Thread) :
    Nat × List Thread :=
  sched.foldl (fun p tid => stepTid tid p.1 p.2) (c, ths)

end DockerMcpApp

namespace DockerMcpApp

/-- Reading a labeled counter on a cons cell. -/
theorem getLabel_cons (key k : Labels) (v : Nat) (rest : List (Labels × Nat)) :
    getLabel key ((k, v) :: rest) = if k = key then v else getLabel key rest := by
  by_cases h : k = key
  · subst h
    simp [getLabel]
  · simp [getLabel, h]

/-- Bumping a labeled counter raises exactly that label by one. -/
theorem getLabel_incLabel_self (key : Labels) (l : List (Labels × Nat)) :
    getLabel key (incLabel key l) = getLabel key l + 1 := by
  induction l with
  | nil => simp [incLabel, getLabel_cons, getLabel]
  | cons p rest ih =>
    obtain ⟨k, v⟩ := p
    by_cases h : k = key
    · subst h
      simp [incLabel, getLabel_cons]
    · simp [incLabel, h, getLabel_cons, ih]

/-- Bumping a labeled counter leaves every other label unchanged. -/
theorem getLabel_incLabel_other (key key2 : Labels) (l : List (Labels × Nat))
    (h : key2 ≠ key) :
    getLabel key2 (incLabel key l) = getLabel key2 l := by
  induction l with
  | nil => simp [incLabel, getLabel_cons, getLabel, Ne.symm h]
  | cons p rest ih =>
    obtain ⟨k, v⟩ := p
    by_cases hk : k = key
    · subst hk
      simp [incLabel, getLabel_cons, Ne.symm h]
    · simp [incLabel, hk, getLabel_cons, ih]

end DockerMcpApp

namespace DockerMcpApp

/-- C1 counterexample: the claim says every one of the five registered
routes, including /metrics, increments the labeled (method, endpoint)
counter. A request to /metrics (a registered route) leaves the labeled
counters unchanged: starting from an empty labeled-counter map, the map is
still empty after the request. -/
theorem C1_metrics_no_labeled_increment :
    "/metrics" ∈ routes ∧
    (handleRequest (fun _ => none) 0
        { app_start_time := 0, request_count := 0, labeled := [] }
        "/metrics").1.labeled = [] := by
  decide

/-- C1 (amended): every request to a registered route increments the global
request counter by one; the routes /, /health, /api/info and /api/test also
increment their labeled (GET, path) counter by one, while /metrics leaves
the labeled counters unchanged. -/
theorem C1_request_counters (env : Env) (t : ℚ) (st : AppState) (path : String)
    (h : path ∈ routes) :
    (handleRequest env t st path).1.request_count = st.request_count + 1 ∧
    (path ≠ "/metrics" →
      getLabel ("GET", path) (handleRequest env t st path).1.labeled
        = getLabel ("GET", path) st.labeled + 1) ∧
    (path = "/metrics" →
      (handleRequest env t st path).1.labeled = st.labeled) := by
  simp only [routes, List.mem_cons, List.not_mem_nil, or_false] at h
  rcases h with h | h | h | h | h <;> subst h <;>
    simp [handleRequest, home, health, metrics, api_info, api_test,
      before_request, getLabel_incLabel_self]

/-- C1 witness: the amended statement instantiated at the route /health
with a concrete environment, clock and state. -/
theorem C1_request_counters_witness :
    (handleRequest (fun _ => none) 2
        { app_start_time := 0, request_count := 5, labeled := [] }
        "/health").1.request_count = 5 + 1 ∧
    ("/health" ≠ "/metrics" →
      getLabel ("GET", "/health")
          (handleRequest (fun _ => none) 2
            { app_start_time := 0, request_count := 5, labeled := [] }
            "/health").1.labeled
        = getLabel ("GET", "/health")
            (AppState.labeled
              { app_start_time := 0, request_count := 5, labeled := [] }) + 1) ∧
    ("/health" = "/metrics" →
      (handleRequest (fun _ => none) 2
          { app_start_time := 0, request_count := 5, labeled := [] }
          "/health").1.labeled = []) :=
  C1_request_counters (fun _ => none) 2
    { app_start_time := 0, request_count := 5, labeled := [] }
    "/health" (by decide)

end DockerMcpApp

namespace DockerMcpApp

/-- C2: a GET request to /health, when the clock reading t is at least the
recorded start time, yields status 200 and a JSON body with status
"healthy", uptime equal to t minus the start time (hence non-negative),
and timestamp and version fields present. -/
theorem C2_health_contract (env : Env) (t : ℚ) (st : AppState)
    (h : st.app_start_time ≤ t) :
    (handleRequest env t st "/health").2.status = 200 ∧
    ∃ o : JObj, (handleRequest env t st "/health").2.body = Body.json o ∧
      JObj.lookup o "status" = some (JVal.s "healthy") ∧
      JObj.lookup o "uptime" = some (JVal.num (t - st.app_start_time)) ∧
      0 ≤ t - st.app_start_time ∧
      (JObj.lookup o "timestamp").isSome = true ∧
      (JObj.lookup o "version").isSome = true := by
  refine ⟨rfl, ?_⟩
  refine ⟨_, rfl, ?_, ?_, ?_, ?_, ?_⟩
  · simp [JObj.lookup]
  · simp [JObj.lookup, before_request]
  · linarith
  · simp [JObj.lookup]
  · simp [JObj.lookup]

/-- C2 witness: the /health contract at clock 5 with start time 1. -/
theorem C2_health_contract_witness :
    (handleRequest (fun _ => none) 5
        { app_start_time := 1, request_count := 0, labeled := [] }
        "/health").2.status = 200 ∧
    ∃ o : JObj,
      (handleRequest (fun _ => none) 5
          { app_start_time := 1, request_count := 0, labeled := [] }
          "/health").2.body = Body.json o ∧
      JObj.lookup o "status" = some (JVal.s "healthy") ∧
      JObj.lookup o "uptime" = some (JVal.num (5 - 1)) ∧
      (0 : ℚ) ≤ 5 - 1 ∧
      (JObj.lookup o "timestamp").isSome = true ∧
      (JObj.lookup o "version").isSome = true :=
  C2_health_contract (fun _ => none) 5
    { app_start_time := 1, request_count := 0, labeled := [] } (by norm_num)

/-- C3: the random_number field of a GET /api/test response at a
non-negative clock reading t equals int(t * 1000) mod 1000 (the floor of
t * 1000, since t is non-negative, reduced with the Euclidean mod that
matches the Python % for a positive modulus), and lies in [0, 999]. -/
theorem C3_random_number_range (env : Env) (t : ℚ) (st : AppState)
    (h : 0 ≤ t) :
    ∃ o : JObj, (handleRequest env t st "/api/test").2.body = Body.json o ∧
      JObj.lookup o "random_number"
        = some (JVal.num (((t * 1000 : ℚ).floor % 1000 : Int) : ℚ)) ∧
      ∃ r : Int, JObj.lookup o "random_number" = some (JVal.num (r : ℚ)) ∧
        0 ≤ r ∧ r ≤ 999 := by
  have hfloor : pyInt (t * 1000) = (t * 1000 : ℚ).floor := by
    unfold pyInt
    rw [if_pos (by positivity)]
  refine ⟨_, rfl, ?_, ?_⟩
  · simp [JObj.lookup, hfloor]
  · refine ⟨((t * 1000 : ℚ).floor % 1000), ?_, ?_, ?_⟩
    · simp [JObj.lookup, hfloor]
    · exact Int.emod_nonneg _ (by norm_num)
    · have h2 := Int.emod_lt_of_pos ((t * 1000 : ℚ).floor)
        (show (0 : Int) < 1000 by norm_num)
      omega

/-- C3 witness: at clock reading 7/5, random_number is 400 = 1400 mod 1000. -/
theorem C3_random_number_range_witness :
    ∃ o : JObj,
      (handleRequest (fun _ => none) (7 / 5)
          { app_start_time := 0, request_count := 0, labeled := [] }
          "/api/test").2.body = Body.json o ∧
      JObj.lookup o "random_number"
        = some (JVal.num ((((7 / 5 : ℚ) * 1000).floor % 1000 : Int) : ℚ)) ∧
      ∃ r : Int, JObj.lookup o "random_number" = some (JVal.num (r : ℚ)) ∧
        0 ≤ r ∧ r ≤ 999 :=
  C3_random_number_range (fun _ => none) (7 / 5)
    { app_start_time := 0, request_count := 0, labeled := [] } (by norm_num)

/-- C4: a request whose path matches none of the five registered routes
produces status 404 with a JSON body holding an error field; no other
error kind arises for unmatched routes. -/
theorem C4_unmatched_is_404 (env : Env) (t : ℚ) (st : AppState) (path : String)
    (h : path ∉ routes) :
    (handleRequest env t st path).2.status = 404 ∧
    ∃ o : JObj, (handleRequest env t st path).2.body = Body.json o ∧
      (JObj.lookup o "error").isSome = true := by
  simp only [routes, List.mem_cons, List.not_mem_nil, or_false, not_or] at h
  obtain ⟨h1, h2, h3, h4, h5⟩ := h
  simp [handleRequest, h1, h2, h3, h4, h5, not_found, JObj.lookup]

/-- C4 witness: the unmatched path /nonexistent gets the structured 404. -/
theorem C4_unmatched_is_404_witness :
    (handleRequest (fun _ => none) 0
        { app_start_time := 0, request_count := 0, labeled := [] }
        "/nonexistent").2.status = 404 ∧
    ∃ o : JObj,
      (handleRequest (fun _ => none) 0
          { app_start_time := 0, request_count := 0, labeled := [] }
          "/nonexistent").2.body = Body.json o ∧
      (JObj.lookup o "error").isSome = true :=
  C4_unmatched_is_404 (fun _ => none) 0
    { app_start_time := 0, request_count := 0, labeled := [] }
    "/nonexistent" (by decide)

end DockerMcpApp

namespace DockerMcpApp

/-- C5 counterexample: the claim says the global request counter is the
same after an error response as before it. For the unmatched path
/nonexistent starting from counter 0, the response is the structured 404
yet the counter afterwards is 1, not 0, because the before_request hook
runs for every inbound request, matched or not. -/
theorem C5_error_counter_changes :
    "/nonexistent" ∉ routes ∧
    (handleRequest (fun _ => none) 0
        { app_start_time := 0, request_count := 0, labeled := [] }
        "/nonexistent").2.status = 404 ∧
    (handleRequest (fun _ => none) 0
        { app_start_time := 0, request_count := 0, labeled := [] }
        "/nonexistent").1.request_count ≠ 0 := by
  decide

/-- C5 (amended): a 404 for an unmatched route leaves the labeled metrics
counters and the start timestamp unchanged, and increments the global
request counter by exactly one (the before_request hook); beyond that
single increment the error affects no shared state. -/
theorem C5_error_frame (env : Env) (t : ℚ) (st : AppState) (path : String)
    (h : path ∉ routes) :
    (handleRequest env t st path).2.status = 404 ∧
    (handleRequest env t st path).1.labeled = st.labeled ∧
    (handleRequest env t st path).1.app_start_time = st.app_start_time ∧
    (handleRequest env t st path).1.request_count = st.request_count + 1 := by
  simp only [routes, List.mem_cons, List.not_mem_nil, or_false, not_or] at h
  obtain ⟨h1, h2, h3, h4, h5⟩ := h
  simp [handleRequest, h1, h2, h3, h4, h5, not_found, before_request]

/-- C5 witness: the amended frame statement at the unmatched path /missing. -/
theorem C5_error_frame_witness :
    (handleRequest (fun _ => none) 3
        { app_start_time := 1, request_count := 7, labeled := [(("GET", "/"), 2)] }
        "/missing").2.status = 404 ∧
    (handleRequest (fun _ => none) 3
        { app_start_time := 1, request_count := 7, labeled := [(("GET", "/"), 2)] }
        "/missing").1.labeled = [(("GET", "/"), 2)] ∧
    (handleRequest (fun _ => none) 3
        { app_start_time := 1, request_count := 7, labeled := [(("GET", "/"), 2)] }
        "/missing").1.app_start_time = 1 ∧
    (handleRequest (fun _ => none) 3
        { app_start_time := 1, request_count := 7, labeled := [(("GET", "/"), 2)] }
        "/missing").1.request_count = 7 + 1 :=
  C5_error_frame (fun _ => none) 3
    { app_start_time := 1, request_count := 7, labeled := [(("GET", "/"), 2)] }
    "/missing" (by decide)

/-- C6: the unguarded read-modify-write request_count += 1 loses an update
under the interleaving read by thread 0, read by thread 1, write by
thread 0, write by thread 1: both of the two request threads run their
increment to completion (both program counters reach the end of incProg)
yet the counter ends at 1, not at 0 + 2; the serial schedule of the same
two threads does end at 2. -/
theorem C6_lost_update :
    (execSched [0, 1, 0, 1] 0 [{ pc := 0, reg := 0 }, { pc := 0, reg := 0 }]).1 = 1 ∧
    ((execSched [0, 1, 0, 1] 0
        [{ pc := 0, reg := 0 }, { pc := 0, reg := 0 }]).2.all
      (fun th => th.pc = incProg.length)) = true ∧
    (execSched [0, 0, 1, 1] 0 [{ pc := 0, reg := 0 }, { pc := 0, reg := 0 }]).1 = 2 ∧
    (handleRequest (fun _ => none) 0
        { app_start_time := 0, request_count := 0, labeled := [] }
        "/api/test").2.status = 200 := by
  decide

end DockerMcpApp

namespace DockerMcpApp

/-- C7: when an environment variable is unset the corresponding default is
used at every read site: the startup port defaults to 8000 when PORT is
unset; the branch label defaults to "main" when BRANCH_NAME is unset, in
the startup log, the home page and the /api/info body; the environment
label defaults to "development" when APP_ENV is unset, in the startup log
(including the debug flag), the home page and the /api/info body. -/
theorem C7_env_defaults (env : Env) (t : ℚ) (st : AppState) :
    (env "PORT" = none →
      ∃ info, mainStartup env = some info ∧ info.port = 8000) ∧
    (env "BRANCH_NAME" = none →
      (∀ info, mainStartup env = some info → info.logged_branch = "main") ∧
      (∃ d, (handleRequest env t st "/").2.body = Body.html d ∧
        d.branch_name = "main") ∧
      (∃ o, (handleRequest env t st "/api/info").2.body = Body.json o ∧
        JObj.lookup o "branch" = some (JVal.s "main"))) ∧
    (env "APP_ENV" = none →
      (∀ info, mainStartup env = some info →
        info.logged_environment = "development" ∧ info.debug = true) ∧
      (∃ d, (handleRequest env t st "/").2.body = Body.html d ∧
        d.environment = "development") ∧
      (∃ o, (handleRequest env t st "/api/info").2.body = Body.json o ∧
        JObj.lookup o "environment" = some (JVal.s "development"))) := by
  refine ⟨?_, ?_, ?_⟩
  · intro hp
    simp only [mainStartup, hp]
    exact ⟨_, rfl, rfl⟩
  · intro hb
    refine ⟨?_, ?_, ?_⟩
    · intro info hinfo
      simp only [mainStartup] at hinfo
      rcases Option.map_eq_some'.mp hinfo with ⟨port, hport, hrec⟩
      rw [← hrec]
      simp [getenv, hb]
    · exact ⟨_, rfl, by simp [getenv, hb]⟩
    · refine ⟨_, rfl, ?_⟩
      simp [JObj.lookup, getenv, hb]
  · intro he
    refine ⟨?_, ?_, ?_⟩
    · intro info hinfo
      simp only [mainStartup] at hinfo
      rcases Option.map_eq_some'.mp hinfo with ⟨port, hport, hrec⟩
      rw [← hrec]
      simp [getenv, he]
    · exact ⟨_, rfl, by simp [getenv, he]⟩
    · refine ⟨_, rfl, ?_⟩
      simp [JObj.lookup, getenv, he]

/-- C7 witness: the defaults in the fully empty environment. -/
theorem C7_env_defaults_witness :
    (∃ info, mainStartup (fun _ => none) = some info ∧ info.port = 8000) ∧
    ((∀ info, mainStartup (fun _ => none) = some info →
        info.logged_branch = "main") ∧
     (∃ d, (handleRequest (fun _ => none) 0
          { app_start_time := 0, request_count := 0, labeled := [] }
          "/").2.body = Body.html d ∧ d.branch_name = "main") ∧
     (∃ o, (handleRequest (fun _ => none) 0
          { app_start_time := 0, request_count := 0, labeled := [] }
          "/api/info").2.body = Body.json o ∧
        JObj.lookup o "branch" = some (JVal.s "main"))) ∧
    ((∀ info, mainStartup (fun _ => none) = some info →
        info.logged_environment = "development" ∧ info.debug = true) ∧
     (∃ d, (handleRequest (fun _ => none) 0
          { app_start_time := 0, request_count := 0, labeled := [] }
          "/").2.body = Body.html d ∧ d.environment = "development") ∧
     (∃ o, (handleRequest (fun _ => none) 0
          { app_start_time := 0, request_count := 0, labeled := [] }
          "/api/info").2.body = Body.json o ∧
        JObj.lookup o "environment" = some (JVal.s "development"))) :=
  have h := C7_env_defaults (fun _ => none) 0
    { app_start_time := 0, request_count := 0, labeled := [] }
  ⟨h.1 rfl, h.2.1 rfl, h.2.2 rfl⟩

end DockerMcpApp

namespace DockerMcpApp

/-- C8: a GET request to /api/info yields status 200 and a JSON body with
exactly the fields app_name, version, branch, environment, container_id,
python_version, start_time, current_time, where branch, environment and
container_id read BRANCH_NAME, APP_ENV and HOSTNAME (with their defaults)
and start_time is the timestamp captured at process launch. -/
theorem C8_api_info_contract (env : Env) (t : ℚ) (st : AppState) :
    (handleRequest env t st "/api/info").2.status = 200 ∧
    ∃ o : JObj, (handleRequest env t st "/api/info").2.body = Body.json o ∧
      JObj.keys o = ["app_name", "version", "branch", "environment",
        "container_id", "python_version", "start_time", "current_time"] ∧
      JObj.lookup o "branch" = some (JVal.s (getenv env "BRANCH_NAME" "main")) ∧
      JObj.lookup o "environment"
        = some (JVal.s (getenv env "APP_ENV" "development")) ∧
      JObj.lookup o "container_id"
        = some (JVal.s (getenv env "HOSTNAME" "unknown")) ∧
      JObj.lookup o "start_time" = some (JVal.num st.app_start_time) ∧
      JObj.lookup o "current_time" = some (JVal.num t) := by
  refine ⟨rfl, _, rfl, ?_, ?_, ?_, ?_, ?_, ?_⟩
  · simp [JObj.keys]
  · simp [JObj.lookup]
  · simp [JObj.lookup]
  · simp [JObj.lookup]
  · simp [JObj.lookup, before_request]
  · simp [JObj.lookup]

/-- A request to / or /health succeeds with 200, preserves the start
timestamp, and changes no labeled counter other than its own. -/
theorem handleRequest_home_health_step (env : Env) (t : ℚ) (st : AppState)
    (path : String) (hp : path = "/" ∨ path = "/health") :
    (handleRequest env t st path).2.status = 200 ∧
    (handleRequest env t st path).1.app_start_time = st.app_start_time ∧
    ∀ key : Labels, key ≠ ("GET", "/") → key ≠ ("GET", "/health") →
      getLabel key (handleRequest env t st path).1.labeled
        = getLabel key st.labeled := by
  rcases hp with hp | hp <;> subst hp
  · refine ⟨rfl, rfl, ?_⟩
    intro key h1 h2
    show getLabel key (incLabel ("GET", "/") st.labeled) = getLabel key st.labeled
    exact getLabel_incLabel_other _ _ _ h1
  · refine ⟨rfl, rfl, ?_⟩
    intro key h1 h2
    show getLabel key (incLabel ("GET", "/health") st.labeled)
      = getLabel key st.labeled
    exact getLabel_incLabel_other _ _ _ h2

/-- C9: over any sequence of GET requests to / or /health, every response
is a 200 (no error is ever produced), the start timestamp is unchanged,
and every labeled counter other than the ("GET", "/") and
("GET", "/health") ones keeps its value: the only mutated state is the
request counter and the counters of the two endpoints exercised. -/
theorem C9_repeated_home_health (env : Env) (reqs : List (String × ℚ))
    (st : AppState) (h : ∀ p ∈ reqs, p.1 = "/" ∨ p.1 = "/health") :
    (∀ r ∈ (runSeq env reqs st).2, r.status = 200) ∧
    (runSeq env reqs st).1.app_start_time = st.app_start_time ∧
    (∀ key : Labels, key ≠ ("GET", "/") → key ≠ ("GET", "/health") →
      getLabel key (runSeq env reqs st).1.labeled = getLabel key st.labeled) := by
  induction reqs generalizing st with
  | nil => simp [runSeq]
  | cons p rest ih =>
    obtain ⟨path, t⟩ := p
    have hp := h (path, t) (List.mem_cons_self _ _)
    have hrest : ∀ q ∈ rest, q.1 = "/" ∨ q.1 = "/health" :=
      fun q hq => h q (List.mem_cons_of_mem _ hq)
    have hstep := handleRequest_home_health_step env t st path hp
    have hih := ih (handleRequest env t st path).1 hrest
    refine ⟨?_, ?_, ?_⟩
    · intro r hr
      simp only [runSeq] at hr
      rcases List.mem_cons.mp hr with hr | hr
      · rw [hr]
        exact hstep.1
      · exact hih.1 r hr
    · simp only [runSeq]
      rw [hih.2.1, hstep.2.1]
    · intro key h1 h2
      simp only [runSeq]
      rw [hih.2.2 key h1 h2, hstep.2.2 key h1 h2]

/-- C9 witness: a home request then a health request from a state with an
existing /api/test counter, which keeps its value 4. -/
theorem C9_repeated_home_health_witness :
    (∀ r ∈ (runSeq (fun _ => none) [("/", 2), ("/health", 3)]
        { app_start_time := 1, request_count := 0,
          labeled := [(("GET", "/api/test"), 4)] }).2, r.status = 200) ∧
    (runSeq (fun _ => none) [("/", 2), ("/health", 3)]
        { app_start_time := 1, request_count := 0,
          labeled := [(("GET", "/api/test"), 4)] }).1.app_start_time = 1 ∧
    (∀ key : Labels, key ≠ ("GET", "/") → key ≠ ("GET", "/health") →
      getLabel key (runSeq (fun _ => none) [("/", 2), ("/health", 3)]
          { app_start_time := 1, request_count := 0,
            labeled := [(("GET", "/api/test"), 4)] }).1.labeled
        = getLabel key [(("GET", "/api/test"), 4)]) :=
  C9_repeated_home_health (fun _ => none) [("/", 2), ("/health", 3)]
    { app_start_time := 1, request_count := 0,
      labeled := [(("GET", "/api/test"), 4)] }
    (by decide)

/-- C10: the /api/test response is a function of the clock alone: two
executions observing the same clock reading t produce identical responses
(status and every JSON field), whatever the environment and the prior
application state. -/
theorem C10_api_test_clock_determinism (env1 env2 : Env) (t : ℚ)
    (st1 st2 : AppState) :
    (handleRequest env1 t st1 "/api/test").2
      = (handleRequest env2 t st2 "/api/test").2 := rfl

end DockerMcpApp
